import Mathlib

/-!
Verification of the reliability plane of a digital-signage data-collection
service: the supervisor (watchdog) restart logic, the PLC service failure
counter, the auto-reconnect wrapper of the transport client, the readiness
classification of the HTTP API, and the fetcher computations
(remaining minutes and pallets, alarm message decoding, BCD timestamps).

Python floats are idealised by rationals; every concrete input used below is
chosen so that the floating-point computation of the source is exact enough
that the rational idealisation agrees with it. Monotonic clock readings are
rationals. Machine words read from the PLC are 16-bit and modelled as
natural numbers below 2 to the 16th.

The file opens with all definitions (the embedding of the code) and closes
with the theorems about them.
-/

namespace Signage

/-! ## Supervisor (scripts/watchdog.py): definitions -/

/-- Configuration fields of WatchdogSettings (config/settings.py) that the
supervisor logic reads. -/
structure WatchdogConfig where
  check_interval : ℚ
  failure_limit : ℕ
  initial_cooldown : ℚ
  startup_grace : ℚ
  backoff_max : ℚ
  ready_check_interval : ℚ
deriving Repr, DecidableEq

/-- The pydantic Field range constraints of WatchdogSettings. -/
def WatchdogConfig.validated (c : WatchdogConfig) : Prop :=
  5 ≤ c.check_interval ∧ c.check_interval ≤ 60 ∧
  1 ≤ c.failure_limit ∧ c.failure_limit ≤ 10 ∧
  30 ≤ c.initial_cooldown ∧ c.initial_cooldown ≤ 300 ∧
  30 ≤ c.startup_grace ∧ c.startup_grace ≤ 180 ∧
  300 ≤ c.backoff_max ∧ c.backoff_max ≤ 7200 ∧
  0 ≤ c.ready_check_interval ∧ c.ready_check_interval ≤ 300

/-- Default values of WatchdogSettings. -/
def defaultWatchdogConfig : WatchdogConfig :=
  { check_interval := 10
    failure_limit := 3
    initial_cooldown := 60
    startup_grace := 60
    backoff_max := 1800
    ready_check_interval := 60 }

/-- Mutable state of APIWatchdog that the monitoring logic touches. -/
structure WatchdogState where
  consecutive_failures : ℕ
  restart_count : ℕ
  last_restart_monotonic : Option ℚ
  last_success_monotonic : Option ℚ
  last_ready_check_monotonic : Option ℚ
  last_api_pid : Option ℕ
deriving Repr, DecidableEq

/-- State right after APIWatchdog.__init__. -/
def initialWatchdogState : WatchdogState :=
  { consecutive_failures := 0
    restart_count := 0
    last_restart_monotonic := none
    last_success_monotonic := none
    last_ready_check_monotonic := none
    last_api_pid := none }

/-- APIWatchdog._get_current_cooldown: staged backoff
initial_cooldown, 300, 900, 1800 indexed by min(restart_count, 3),
capped by backoff_max. -/
def get_current_cooldown (cfg : WatchdogConfig) (restart_count : ℕ) : ℚ :=
  let backoff_stages : List ℚ := [cfg.initial_cooldown, 300, 900, 1800]
  let stage := min restart_count (backoff_stages.length - 1)
  let cooldown := backoff_stages.getD stage 0
  min cooldown cfg.backoff_max

/-- Outcome of one /health probe as _check_health classifies it: a 200
response carrying an optional pid, or any failure (non-200 status, request
error, or unexpected exception such as a JSON decode error). -/
inductive ProbeOutcome where
  | success (pid : Option ℕ)
  | failure
deriving Repr, DecidableEq

/-- The restart tail of APIWatchdog._attempt_restart once the grace and
cooldown checks have passed: record the restart time, bump restart_count,
stop and start the child. _start_api_server resets consecutive_failures to 0
when the startup wait saw /health answer 200 (bringup_ok). -/
def execute_restart (s : WatchdogState) (now : ℚ) (bringup_ok : Bool) :
    WatchdogState × Bool :=
  let s1 := { s with last_restart_monotonic := some now,
                     restart_count := s.restart_count + 1 }
  (if bringup_ok then { s1 with consecutive_failures := 0 } else s1, true)

/-- APIWatchdog._attempt_restart: skip inside the startup grace window, skip
inside the current cooldown (both preserve all counters), otherwise execute
the staged restart. The returned Bool tells whether a restart was executed. -/
def attempt_restart (cfg : WatchdogConfig) (s : WatchdogState) (now : ℚ)
    (bringup_ok : Bool) : WatchdogState × Bool :=
  let cooldown := get_current_cooldown cfg s.restart_count
  match s.last_restart_monotonic with
  | some t =>
    if now - t < cfg.startup_grace then (s, false)
    else if now - t < cooldown then (s, false)
    else execute_restart s now bringup_ok
  | none => execute_restart s now bringup_ok

/-- APIWatchdog._handle_health_failure: increment consecutive_failures and
call the restart decision at the failure limit. -/
def handle_health_failure (cfg : WatchdogConfig) (s : WatchdogState) (now : ℚ)
    (bringup_ok : Bool) : WatchdogState × Bool :=
  let s1 := { s with consecutive_failures := s.consecutive_failures + 1 }
  if cfg.failure_limit ≤ s1.consecutive_failures then
    attempt_restart cfg s1 now bringup_ok
  else (s1, false)

/-- APIWatchdog._check_health: on a 200 response reset consecutive_failures
and restart_count, record the success time and track the reported pid; on
any failure delegate to _handle_health_failure. -/
def check_health (cfg : WatchdogConfig) (s : WatchdogState) (now : ℚ)
    (outcome : ProbeOutcome) (bringup_ok : Bool) : WatchdogState × Bool :=
  match outcome with
  | .success pid? =>
    let s1 := { s with consecutive_failures := 0,
                       last_success_monotonic := some now,
                       restart_count := 0 }
    let s2 := match pid? with
      | some p => { s1 with last_api_pid := some p }
      | none => s1
    (s2, false)
  | .failure => handle_health_failure cfg s now bringup_ok

/-- One monitoring-loop probe event: the monotonic time of the probe, its
outcome, and (when a restart gets executed) whether the restarted API server
came up within the startup wait. -/
structure HealthEvent where
  now : ℚ
  outcome : ProbeOutcome
  bringup_ok : Bool
deriving Repr, DecidableEq

/-- Folding the monitoring loop over a sequence of probe events. -/
def run_watchdog (cfg : WatchdogConfig) (s : WatchdogState)
    (evs : List HealthEvent) : WatchdogState :=
  evs.foldl (fun st e => (check_health cfg st e.now e.outcome e.bringup_ok).1) s

/-- Length of the trailing run of failed probes in an event sequence. -/
def trailing_failure_run (evs : List HealthEvent) : ℕ :=
  (evs.reverse.takeWhile (fun e => e.outcome == ProbeOutcome.failure)).length

/-- Body of a /ready response as the supervisor sees it: the reported
status, or a probe failure (non-200, connection error, exception). -/
inductive ReadyResponse where
  | ok
  | degraded
  | unhealthy
  | probe_error
deriving Repr, DecidableEq

/-- Modelled from the spec: APIWatchdog._check_ready_if_due is absent from
scripts/watchdog.py (WatchdogSettings declares WATCHDOG_READY_CHECK_INTERVAL
and tests/scripts/test_watchdog.py exercises the method, but the monitoring
loop in src never defines or calls it). Following the spec: when
WATCHDOG_READY_CHECK_INTERVAL is positive and that interval has elapsed
since the last readiness check (or none was made yet), issue a /ready probe
and record its monotonic time; a degraded or unhealthy response is logged
only - it neither increments consecutive_failures nor drives a restart. The
returned Bool tells whether a probe was issued. -/
def check_ready_if_due (cfg : WatchdogConfig) (s : WatchdogState) (now : ℚ)
    (resp : ReadyResponse) : WatchdogState × Bool :=
  if cfg.ready_check_interval ≤ 0 then (s, false)
  else
    let due := match s.last_ready_check_monotonic with
      | none => true
      | some t => decide (cfg.ready_check_interval ≤ now - t)
    if due then
      ({ s with last_ready_check_monotonic := some now },
       match resp with
       | _ => true)
    else (s, false)

/-- Modelled from the spec: one iteration of the monitoring loop performs
the /health probe handling and then the readiness check (the readiness half
being the part absent from src, see check_ready_if_due). Returns the new
state, whether a restart was executed, and whether a /ready probe was
issued. -/
def monitor_iteration (cfg : WatchdogConfig) (s : WatchdogState) (now : ℚ)
    (outcome : ProbeOutcome) (bringup_ok : Bool) (resp : ReadyResponse) :
    WatchdogState × Bool × Bool :=
  let h := check_health cfg s now outcome bringup_ok
  let r := check_ready_if_due cfg h.1 now resp
  (r.1, h.2, r.2)

/-! ## Readiness classification (src/api/main.py): definitions -/

/-- Status string computed by readiness_check in src/api/main.py from the
three probes: executor ping (thread_pool_ok), service state
(plc_service_ready, absent from src as PLCService.is_ready and modelled as
an abstract Boolean input) and PLC ping (plc_alive, absent from src as
PLCService.ping_plc and modelled likewise). -/
def readiness_status (thread_pool_ok plc_service_ready plc_alive : Bool) :
    String :=
  if thread_pool_ok && plc_service_ready && plc_alive then "ok"
  else if thread_pool_ok && plc_service_ready then "degraded"
  else "unhealthy"

/-! ## PLC Service (src/api/services/plc_service.py): definitions -/

/-- Side effects of the failure path of the PLC service: the graceful
disconnect attempted by shutdown() inside _terminate_process, and the
SIGTERM the service sends to its own process. -/
inductive PLCAction where
  | disconnect
  | sigterm
deriving Repr, DecidableEq

/-- Outcome of the dispatched transport call as _execute_with_timeout sees
it: the future resolved with a value, the future timed out
(concurrent.futures.TimeoutError), or the call raised any other exception
(disconnection, protocol error, ...). -/
inductive ExecOutcome (α : Type) where
  | ok (v : α)
  | timeout
  | raised
deriving Repr, DecidableEq

/-- Result surfaced to the caller of _execute_with_timeout: the value, the
PLCCommunicationTimeoutError replacing a future timeout, or the re-raised
transport exception. -/
inductive PLCResult (α : Type) where
  | ok (v : α)
  | timeout_error
  | reraised
deriving Repr, DecidableEq

/-- PLCService._handle_failure: increment the consecutive-failure counter;
at PLC_FETCH_FAILURE_LIMIT call _terminate_process, which attempts the
graceful disconnect (shutdown) and then sends SIGTERM to its own process. -/
def handle_failure (failure_limit cf : ℕ) : ℕ × List PLCAction :=
  let cf1 := cf + 1
  if failure_limit ≤ cf1 then (cf1, [.disconnect, .sigterm]) else (cf1, [])

/-- PLCService._execute_with_timeout: on success reset the counter and
return the result; on a future timeout or any other exception run
_handle_failure and surface the error. -/
def execute_with_timeout (failure_limit cf : ℕ) {α : Type}
    (outcome : ExecOutcome α) : ℕ × List PLCAction × PLCResult α :=
  match outcome with
  | .ok v => (0, [], .ok v)
  | .timeout =>
    let h := handle_failure failure_limit cf
    (h.1, h.2, .timeout_error)
  | .raised =>
    let h := handle_failure failure_limit cf
    (h.1, h.2, .reraised)

/-! ## Auto-reconnect wrapper (src/backend/plc/plc_client.py): definitions -/

/-- Settings fields of Settings (config/settings.py) that the
auto_reconnect decorator reads. -/
structure ClientSettings where
  auto_reconnect_enabled : Bool
  reconnect_restart : Bool
deriving Repr, DecidableEq

/-- The three function names the decorator treats as typed reads when
deciding on a restart request. -/
def typed_read_names : List String := ["read_words", "read_bits", "read_dwords"]

/-- Everything observable about one pass through the auto_reconnect
wrapper: the surfaced result (ok value or raised I/O error code), how many
times the wrapped function ran, how many times reconnect() ran, and whether
restart_system was requested. -/
structure WrapResult (α : Type) where
  result : Except ℕ α
  func_calls : ℕ
  reconnect_calls : ℕ
  restart_requested : Bool
deriving Repr

/-- The auto_reconnect decorator of plc_client.py: run the wrapped call;
on an I/O error (ConnectionError, OSError, TimeoutError, socket.timeout),
when AUTO_RECONNECT is set call reconnect() and, if it succeeded, run the
original call exactly once more and surface whatever it produces; when the
reconnect failed (or AUTO_RECONNECT is off), request a process restart if
RECONNECT_RESTART is set and the wrapped function is a typed read, and
re-raise the original error. The first and second invocations of the
wrapped call are given as oracles, as is the reconnect() outcome. -/
def auto_reconnect {α : Type} (st : ClientSettings) (fname : String)
    (first retry : Except ℕ α) (reconnect_ok : Bool) : WrapResult α :=
  match first with
  | .ok v => ⟨.ok v, 1, 0, false⟩
  | .error e =>
    if st.auto_reconnect_enabled then
      if reconnect_ok then
        match retry with
        | .ok v => ⟨.ok v, 2, 1, false⟩
        | .error e2 => ⟨.error e2, 2, 1, false⟩
      else
        ⟨.error e, 1, 1,
         st.reconnect_restart && typed_read_names.contains fname⟩
    else
      ⟨.error e, 1, 0,
       st.reconnect_restart && typed_read_names.contains fname⟩

/-! ## Python rounding, idealised over the rationals -/

/-- Rounding to the nearest integer with ties going to the even integer,
the rule of the Python builtin round. -/
def round_half_even (x : ℚ) : ℤ :=
  let n := ⌊x⌋
  let r := x - (n : ℚ)
  if r < 1/2 then n
  else if 1/2 < r then n + 1
  else if n % 2 = 0 then n else n + 1

/-- Python round(x, ndigits): round half to even at the given decimal
place. -/
def py_round (ndigits : ℕ) (x : ℚ) : ℚ :=
  (round_half_even (x * 10 ^ ndigits) : ℚ) / 10 ^ ndigits

/-! ## Timestamps (src/backend/plc/plc_fetcher.py, BCD decode): definitions -/

/-- A naive Python datetime value as carried around by the fetcher. -/
structure PLCDateTime where
  year : ℕ
  month : ℕ
  day : ℕ
  hour : ℕ
  minute : ℕ
  second : ℕ
deriving Repr, DecidableEq

/-- Gregorian leap-year rule used by datetime. -/
def is_leap_year (y : ℕ) : Bool :=
  (y % 4 == 0 && y % 100 != 0) || (y % 400 == 0)

/-- Number of days of a month as datetime validates it. -/
def days_in_month (y m : ℕ) : ℕ :=
  if m = 2 then (if is_leap_year y then 29 else 28)
  else if m = 4 ∨ m = 6 ∨ m = 9 ∨ m = 11 then 30
  else 31

/-- The datetime constructor: validates the field ranges
(datetime.MINYEAR..MAXYEAR for the year) and raises ValueError otherwise. -/
def mk_py_datetime (y M d h mi s : ℕ) : Option PLCDateTime :=
  if 1 ≤ y ∧ y ≤ 9999 ∧ 1 ≤ M ∧ M ≤ 12 ∧ 1 ≤ d ∧ d ≤ days_in_month y M
      ∧ h ≤ 23 ∧ mi ≤ 59 ∧ s ≤ 59
  then some ⟨y, M, d, h, mi, s⟩ else none

/-- Splitting one 16-bit word into its two packed-BCD byte values, as the
source does through the 4-digit hex formatting followed by two decimal int
parses: each nibble must be a decimal digit or the parse raises ValueError
(modelled by none). Returns the high-byte value and the low-byte value. -/
def bcd_halves (w : ℕ) : Option (ℕ × ℕ) :=
  let d1 := (w >>> 12) &&& 15
  let d2 := (w >>> 8) &&& 15
  let d3 := (w >>> 4) &&& 15
  let d4 := w &&& 15
  if d1 ≤ 9 ∧ d2 ≤ 9 ∧ d3 ≤ 9 ∧ d4 ≤ 9 then some (10 * d1 + d2, 10 * d3 + d4)
  else none

/-- The decode half of fetch_production_timestamp: word 1 gives year-2000
and month, word 2 day and hour, word 3 minute and second; a short read
(IndexError), a non-decimal nibble (ValueError from int) or an out-of-range
datetime field (ValueError from the constructor) all fail. -/
def decode_bcd_timestamp (ws : List ℕ) : Option PLCDateTime :=
  match ws.get? 0, ws.get? 1, ws.get? 2 with
  | some w0, some w1, some w2 =>
    match bcd_halves w0, bcd_halves w1, bcd_halves w2 with
    | some (yy, mm), some (dd, hh), some (mi, ss) =>
      mk_py_datetime (2000 + yy) mm dd hh mi ss
    | _, _, _ => none
  | _, _, _ => none

/-- fetch_production_timestamp: an empty head_device raises ValueError
before the try block (Except.error, nothing caught); otherwise the transport
read happens inside the try block and any caught transport or decode error
is substituted by the system clock (the now argument). The read oracle is
none for a transport error and some ws for the words delivered. -/
def fetch_production_timestamp (head_device : String)
    (read : Option (List ℕ)) (now : PLCDateTime) : Except String PLCDateTime :=
  if head_device = "" then .error "head_device cannot be an empty string"
  else
    .ok (match read with
      | none => now
      | some ws =>
        match decode_bcd_timestamp ws with
        | some dt => dt
        | none => now)

/-! ## Alarm message decoding (src/backend/plc/plc_fetcher.py): definitions -/

/-- Removal of trailing NUL characters, the rstrip of the source. -/
def drop_trailing_zeros (l : List ℕ) : List ℕ :=
  (l.reverse.dropWhile (fun b => b == 0)).reverse

/-- The byte string assembled by fetch_alarm_msg before trimming: 10 words
are read and each contributes its high byte and then its low byte. The
memory oracle gives the word at each offset of the read. -/
def alarm_bytes (mem : ℕ → ℕ) : List ℕ :=
  (List.range 10).flatMap (fun i => [(mem i >>> 8) &&& 255, mem i &&& 255])

/-- fetch_alarm_msg on a successful read: decode the 10 words high byte
first and trim trailing NULs. Byte values stand for the characters. -/
def fetch_alarm_msg (mem : ℕ → ℕ) : List ℕ :=
  drop_trailing_zeros (alarm_bytes mem)

/-- Modelled from the spec, for comparison with fetch_alarm_msg: the claim
describes the alarm text as decoded from 16 consecutive words (up to 32
bytes), high byte first, trailing NULs trimmed. -/
def spec_alarm_msg_16 (mem : ℕ → ℕ) : List ℕ :=
  drop_trailing_zeros
    ((List.range 16).flatMap (fun i => [(mem i >>> 8) &&& 255, mem i &&& 255]))

/-- Word memory whose first three words spell ERROR followed by a NUL. -/
def error_words : ℕ → ℕ := fun i => [0x4552, 0x524F, 0x5200].getD i 0

/-- Word memory with sixteen nonzero words: every word packs two letters A,
so a 16-word decode yields 32 bytes while the 10-word read yields 20. -/
def wide_words : ℕ → ℕ := fun i => if i < 16 then 0x4141 else 0

/-! ## Fetcher and calculators (src/backend/calculators.py,
src/backend/plc/plc_fetcher.py): definitions -/

/-- One entry of the production-type master
(schemas/production_type.py). -/
structure ProductionTypeConfig where
  production_type : ℕ
  name : String
  fully : ℤ
  seconds_per_product : ℚ
deriving Repr, DecidableEq

/-- The pydantic constraints of ProductionTypeConfig: fully and
seconds_per_product strictly positive, type code within 0..32. -/
def ProductionTypeConfig.validated (c : ProductionTypeConfig) : Prop :=
  0 < c.fully ∧ 0 < c.seconds_per_product ∧ c.production_type ≤ 32

/-- calculate_remain_pallet of src/backend/calculators.py: clamp the
remaining units at 0, divide by fully, and round to the requested number of
decimals (none meaning no rounding; the Python default is 2). -/
def calculate_remain_pallet (cfg : ProductionTypeConfig) (plan actual : ℤ)
    (decimals : Option ℕ) : ℚ :=
  let remaining_units : ℤ := max 0 (plan - actual)
  let remain_pallet : ℚ := (remaining_units : ℚ) / (cfg.fully : ℚ)
  match decimals with
  | some d => py_round d remain_pallet
  | none => remain_pallet

/-- calculate_remain_minutes of src/backend/calculators.py: the remaining
units (not clamped) times seconds_per_product over 60, rounded to the
requested number of decimals (the Python default is 2). -/
def calculate_remain_minutes (cfg : ProductionTypeConfig) (plan actual : ℤ)
    (decimals : Option ℕ) : ℚ :=
  let remain : ℚ := ((plan - actual : ℤ) : ℚ)
  let remain_seconds := remain * cfg.seconds_per_product
  let remain_minute := remain_seconds / 60
  match decimals with
  | some d => py_round d remain_minute
  | none => remain_minute

/-- The ProductionData record of schemas/production.py. -/
structure ProductionData where
  line_name : String
  production_type : ℕ
  production_name : String
  plan : ℤ
  actual : ℤ
  in_operating : Bool
  remain_min : ℤ
  remain_pallet : ℚ
  fully : ℤ
  alarm : Bool
  alarm_msg : String
  timestamp : PLCDateTime
deriving Repr, DecidableEq

/-- The pydantic validation of ProductionData: plan, actual, remain_min,
remain_pallet and fully all carry ge=0 constraints; construction raises
ValidationError (none) when any fails. -/
def mk_production_data (line_name : String) (production_type : ℕ)
    (production_name : String) (plan actual : ℤ) (in_operating : Bool)
    (remain_min : ℤ) (remain_pallet : ℚ) (fully : ℤ) (alarm : Bool)
    (alarm_msg : String) (timestamp : PLCDateTime) : Option ProductionData :=
  if 0 ≤ plan ∧ 0 ≤ actual ∧ 0 ≤ remain_min ∧ 0 ≤ remain_pallet ∧ 0 ≤ fully
  then some ⟨line_name, production_type, production_name, plan, actual,
             in_operating, remain_min, remain_pallet, fully, alarm,
             alarm_msg, timestamp⟩
  else none

/-- The range check of fetch_production_data on the raw production type:
values outside 0..15 collapse to 0. -/
def clamp_production_type (raw : ℤ) : ℕ :=
  if raw < 0 ∨ 15 < raw then 0 else raw.toNat

/-- fetch_production_data of src/backend/plc/plc_fetcher.py, with the
device reads already performed: clamp the raw production type to 0..15,
clamp plan and actual at 0 (fetch_plan and fetch_actual), look up the
production-type master; a missing entry yields the synthesized error
snapshot (UNKNOWN, fully 1, alarm set); otherwise remain_min is the ceiling
of calculate_remain_minutes at the Python default of 2 decimals and
remain_pallet is calculate_remain_pallet at the same default. Construction
goes through the pydantic validation. -/
def fetch_production_data (line_name : String)
    (lookup : ℕ → Option ProductionTypeConfig)
    (ptype_raw plan_raw actual_raw : ℤ) (in_operating alarm : Bool)
    (alarm_msg : String) (ts now : PLCDateTime) : Option ProductionData :=
  let production_type := clamp_production_type ptype_raw
  let plan := max 0 plan_raw
  let actual := max 0 actual_raw
  match lookup production_type with
  | none =>
    mk_production_data line_name production_type "UNKNOWN" plan actual
      in_operating 0 0 1 true
      ("機種設定エラー: type=" ++ toString production_type) now
  | some config =>
    let remain_min := ⌈calculate_remain_minutes config plan actual (some 2)⌉
    let remain_pallet := calculate_remain_pallet config plan actual (some 2)
    mk_production_data line_name production_type config.name plan actual
      in_operating remain_min remain_pallet config.fully alarm alarm_msg ts

/-- A fixed wall-clock value used by the concrete snapshots below. -/
def dt0 : PLCDateTime := ⟨2025, 1, 1, 0, 0, 0⟩

/-- Master entry with seconds_per_product 0.06 (a value the pydantic
constraint gt=0 admits) and fully 8. -/
def configA : ProductionTypeConfig := ⟨1, "A", 8, 3/50⟩

/-- Master holding only configA at type code 1. -/
def lookupA : ℕ → Option ProductionTypeConfig :=
  fun t => if t = 1 then some configA else none

/-- Master entry with seconds_per_product 1.2 and fully 8. -/
def configB : ProductionTypeConfig := ⟨1, "B", 8, 6/5⟩

/-- Master holding only configB at type code 1. -/
def lookupB : ℕ → Option ProductionTypeConfig :=
  fun t => if t = 1 then some configB else none

/-- Master entry with seconds_per_product 30 and fully 2. -/
def configW : ProductionTypeConfig := ⟨1, "W", 2, 30⟩

/-- Master holding only configW at type code 1. -/
def lookupW : ℕ → Option ProductionTypeConfig :=
  fun t => if t = 1 then some configW else none

/-- The snapshot fetch_production_data builds from configW with plan 2 and
actual 1: remain_min is the ceiling of round(1 times 30 over 60, 2) = 0.5,
and remain_pallet is round(1/2, 2). -/
def snapshotW : ProductionData :=
  ⟨"W", 1, "W", 2, 1, true, 1, 1/2, 2, false, "", dt0⟩

/-! ## Theorems: supervisor counters and staged backoff -/

/-- Helper: _attempt_restart either skips (grace window or cooldown, state
untouched) or executes the staged restart. -/
theorem attempt_restart_spec (cfg : WatchdogConfig) (s : WatchdogState)
    (now : ℚ) (b : Bool) :
    attempt_restart cfg s now b = (s, false)
    ∨ attempt_restart cfg s now b = execute_restart s now b := by
  unfold attempt_restart
  rcases s.last_restart_monotonic with _ | t
  · right; rfl
  · dsimp only
    by_cases h1 : now - t < cfg.startup_grace
    · left; simp [h1]
    · by_cases h2 : now - t < get_current_cooldown cfg s.restart_count
      · left; simp [h1, h2]
      · right; simp [h1, h2]

/-- C2, counterexample: with the default settings (failure limit 3), three
failed probes with no intervening success trigger a staged restart whose
bring-up succeeds, and _start_api_server then resets consecutive_failures
to 0 even though the trailing run of failed probes has length 3. So
consecutive_failures does not always equal the trailing failure run, and it
is reset by a successful restart bring-up, not only by a successful probe. -/
theorem claim_C2_counterexample :
    ¬ ((run_watchdog defaultWatchdogConfig initialWatchdogState
          [⟨0, .failure, true⟩, ⟨10, .failure, true⟩,
           ⟨20, .failure, true⟩]).consecutive_failures
        = trailing_failure_run
            [⟨0, .failure, true⟩, ⟨10, .failure, true⟩,
             ⟨20, .failure, true⟩]) := by
  decide

/-- C2 (amended): per probe event, a successful probe resets both
consecutive_failures and restart_count to 0; a failed probe that does not
execute a restart increments consecutive_failures by exactly 1 and leaves
restart_count unchanged; a failed probe that executes a staged restart
increments restart_count by exactly 1 and consecutive_failures becomes 0
when the restarted server came up within the startup wait (a successful
startup /health probe), else the incremented value is kept. -/
theorem claim_C2_watchdog_counters (cfg : WatchdogConfig) (s : WatchdogState)
    (now : ℚ) (pid? : Option ℕ) (bringup_ok : Bool) :
    ((check_health cfg s now (.success pid?) bringup_ok).1.consecutive_failures = 0
      ∧ (check_health cfg s now (.success pid?) bringup_ok).1.restart_count = 0)
    ∧ ((check_health cfg s now .failure bringup_ok).2 = false →
        (check_health cfg s now .failure bringup_ok).1.consecutive_failures
            = s.consecutive_failures + 1
        ∧ (check_health cfg s now .failure bringup_ok).1.restart_count
            = s.restart_count)
    ∧ ((check_health cfg s now .failure bringup_ok).2 = true →
        (check_health cfg s now .failure bringup_ok).1.restart_count
            = s.restart_count + 1
        ∧ (check_health cfg s now .failure bringup_ok).1.consecutive_failures
            = if bringup_ok then 0 else s.consecutive_failures + 1) := by
  have hfail : check_health cfg s now .failure bringup_ok
      = handle_health_failure cfg s now bringup_ok := rfl
  refine ⟨by cases pid? <;> simp [check_health], ?_, ?_⟩ <;>
    rw [hfail] <;> unfold handle_health_failure <;>
    by_cases hl : cfg.failure_limit ≤ s.consecutive_failures + 1
  · rw [if_pos hl]
    rcases attempt_restart_spec cfg
        { s with consecutive_failures := s.consecutive_failures + 1 } now
        bringup_ok with heq | heq <;> rw [heq]
    · exact fun _ => ⟨rfl, rfl⟩
    · unfold execute_restart
      cases bringup_ok <;> simp
  · rw [if_neg hl]
    exact fun _ => ⟨rfl, rfl⟩
  · rw [if_pos hl]
    rcases attempt_restart_spec cfg
        { s with consecutive_failures := s.consecutive_failures + 1 } now
        bringup_ok with heq | heq <;> rw [heq]
    · simp
    · unfold execute_restart
      cases bringup_ok <;> simp
  · rw [if_neg hl]
    simp

/-- Witness for claim_C2_watchdog_counters: with the default settings, a
third consecutive failure at counter 2 executes a restart (restart_count
2 becomes 3 and, bring-up succeeding, consecutive_failures resets), and a
first failure at counter 0 merely increments the counter. -/
theorem claim_C2_witness :
    ((check_health defaultWatchdogConfig ⟨2, 2, none, none, none, none⟩
        0 .failure true).1.restart_count = 2 + 1
      ∧ (check_health defaultWatchdogConfig ⟨2, 2, none, none, none, none⟩
          0 .failure true).1.consecutive_failures = if true then 0 else 2 + 1)
    ∧ ((check_health defaultWatchdogConfig ⟨0, 2, none, none, none, none⟩
          0 .failure true).1.consecutive_failures = 0 + 1
      ∧ (check_health defaultWatchdogConfig ⟨0, 2, none, none, none, none⟩
          0 .failure true).1.restart_count = 2) :=
  ⟨(claim_C2_watchdog_counters defaultWatchdogConfig
      ⟨2, 2, none, none, none, none⟩ 0 none true).2.2 (by decide),
   (claim_C2_watchdog_counters defaultWatchdogConfig
      ⟨0, 2, none, none, none, none⟩ 0 none true).2.1 (by decide)⟩

/-- C3: under the validated settings ranges the staged cooldown is
initial_cooldown for restart_count 0, min(300, backoff_max) for 1,
min(900, backoff_max) for 2 and min(1800, backoff_max) for any count at
least 3, so that when backoff_max is at least 1800 (its default) the
cooldowns for counts 0..4 are initial_cooldown, 300, 900, 1800, 1800; and
while the elapsed time since the previous restart is below the current
cooldown, _attempt_restart executes no restart and leaves the state
untouched. -/
theorem claim_C3_staged_backoff (cfg : WatchdogConfig) (hv : cfg.validated)
    (k : ℕ) :
    get_current_cooldown cfg 0 = cfg.initial_cooldown
    ∧ get_current_cooldown cfg 1 = min 300 cfg.backoff_max
    ∧ get_current_cooldown cfg 2 = min 900 cfg.backoff_max
    ∧ (3 ≤ k → get_current_cooldown cfg k = min 1800 cfg.backoff_max)
    ∧ (1800 ≤ cfg.backoff_max →
        get_current_cooldown cfg 1 = 300
        ∧ get_current_cooldown cfg 2 = 900
        ∧ get_current_cooldown cfg 3 = 1800
        ∧ get_current_cooldown cfg 4 = 1800)
    ∧ (∀ (s : WatchdogState) (now t : ℚ) (b : Bool),
        s.last_restart_monotonic = some t →
        now - t < get_current_cooldown cfg s.restart_count →
        attempt_restart cfg s now b = (s, false)) := by
  obtain ⟨-, -, -, -, hc0lo, hc0hi, -, -, hbmlo, -, -, -⟩ := hv
  refine ⟨?_, by simp [get_current_cooldown], by simp [get_current_cooldown],
      ?_, ?_, ?_⟩
  · have : cfg.initial_cooldown ≤ cfg.backoff_max := le_trans hc0hi hbmlo
    simp [get_current_cooldown, this]
  · intro hk
    have : min k 3 = 3 := min_eq_right hk
    simp [get_current_cooldown, this]
  · intro hbm
    have h300 : (300 : ℚ) ≤ cfg.backoff_max := le_trans (by norm_num) hbm
    have h900 : (900 : ℚ) ≤ cfg.backoff_max := le_trans (by norm_num) hbm
    refine ⟨?_, ?_, ?_, ?_⟩ <;> simp [get_current_cooldown, h300, h900, hbm]
  · intro s now t b hlast hcool
    unfold attempt_restart
    rw [hlast]
    dsimp only
    by_cases h1 : now - t < cfg.startup_grace
    · simp [h1]
    · simp [h1, hcool]

/-- Witness for claim_C3_staged_backoff: the default settings are validated;
with restart_count 1 (cooldown 300) a restart attempt 100 seconds after the
previous restart is skipped with the state unchanged. -/
theorem claim_C3_witness :
    get_current_cooldown defaultWatchdogConfig 3 = 1800
    ∧ attempt_restart defaultWatchdogConfig ⟨5, 1, some 0, none, none, none⟩
        100 true = (⟨5, 1, some 0, none, none, none⟩, false) :=
  ⟨((claim_C3_staged_backoff defaultWatchdogConfig
      (by norm_num [WatchdogConfig.validated, defaultWatchdogConfig])
      5).2.2.2.2.1 (by norm_num [defaultWatchdogConfig])).2.2.1,
   (claim_C3_staged_backoff defaultWatchdogConfig
      (by norm_num [WatchdogConfig.validated, defaultWatchdogConfig])
      5).2.2.2.2.2 ⟨5, 1, some 0, none, none, none⟩ 100 0 true rfl
      (by norm_num [get_current_cooldown, defaultWatchdogConfig, min_def])⟩

/-! ## Theorems: readiness checking -/

/-- Helper: the /health handling never touches last_ready_check_monotonic. -/
theorem check_health_preserves_ready_clock (cfg : WatchdogConfig)
    (s : WatchdogState) (now : ℚ) (outcome : ProbeOutcome) (b : Bool) :
    (check_health cfg s now outcome b).1.last_ready_check_monotonic
      = s.last_ready_check_monotonic := by
  rcases outcome with pid? | _
  · cases pid? <;> rfl
  · show (handle_health_failure cfg s now b).1.last_ready_check_monotonic = _
    unfold handle_health_failure
    by_cases hl : cfg.failure_limit ≤ s.consecutive_failures + 1
    · rw [if_pos hl]
      rcases attempt_restart_spec cfg
          { s with consecutive_failures := s.consecutive_failures + 1 } now b
          with heq | heq <;> rw [heq]
      unfold execute_restart
      cases b <;> rfl
    · rw [if_neg hl]

/-- Helper: the readiness check changes nothing but its own clock. In
particular consecutive_failures, restart_count and the restart bookkeeping
are untouched by any /ready outcome. -/
theorem check_ready_preserves_counters (cfg : WatchdogConfig)
    (s : WatchdogState) (now : ℚ) (resp : ReadyResponse) :
    (check_ready_if_due cfg s now resp).1.consecutive_failures
        = s.consecutive_failures
    ∧ (check_ready_if_due cfg s now resp).1.restart_count = s.restart_count
    ∧ (check_ready_if_due cfg s now resp).1.last_restart_monotonic
        = s.last_restart_monotonic := by
  unfold check_ready_if_due
  by_cases h0 : cfg.ready_check_interval ≤ 0
  · simp [h0]
  · rcases hlast : s.last_ready_check_monotonic with _ | t <;>
      · simp only [h0, hlast, if_false]
        split <;> simp

/-- C5 (spec-modelled): whenever WATCHDOG_READY_CHECK_INTERVAL is positive
and at least that interval has elapsed since the last readiness check (or
none was made yet), the monitoring-loop iteration issues a /ready probe;
and no readiness response (degraded, unhealthy, or probe failure included)
changes consecutive_failures or restart_count or executes a restart. -/
theorem claim_C5_ready_check (cfg : WatchdogConfig) (s : WatchdogState)
    (now : ℚ) (outcome : ProbeOutcome) (bringup_ok : Bool)
    (resp : ReadyResponse)
    (hpos : 0 < cfg.ready_check_interval)
    (hdue : ∀ t, s.last_ready_check_monotonic = some t →
      cfg.ready_check_interval ≤ now - t) :
    (monitor_iteration cfg s now outcome bringup_ok resp).2.2 = true
    ∧ (∀ (s2 : WatchdogState) (now2 : ℚ) (r2 : ReadyResponse),
        (check_ready_if_due cfg s2 now2 r2).1.consecutive_failures
            = s2.consecutive_failures
        ∧ (check_ready_if_due cfg s2 now2 r2).1.restart_count
            = s2.restart_count
        ∧ (check_ready_if_due cfg s2 now2 r2).1.last_restart_monotonic
            = s2.last_restart_monotonic) := by
  refine ⟨?_, fun s2 now2 r2 => check_ready_preserves_counters cfg s2 now2 r2⟩
  unfold monitor_iteration
  dsimp only
  have hready := check_health_preserves_ready_clock cfg s now outcome bringup_ok
  unfold check_ready_if_due
  rw [hready]
  rw [if_neg (not_le.mpr hpos)]
  rcases hlast : s.last_ready_check_monotonic with _ | t
  · simp
  · simp [hdue t hlast]

/-- Witness for claim_C5_ready_check: with the default settings (interval
60 seconds) and a last readiness check 100 seconds ago, a loop iteration
whose health probe succeeded issues the /ready probe, and a degraded
response leaves the failure counter of a state holding 2 failures at 2. -/
theorem claim_C5_witness :
    (monitor_iteration defaultWatchdogConfig ⟨0, 0, none, none, some 0, none⟩
        100 (.success none) true .degraded).2.2 = true
    ∧ (check_ready_if_due defaultWatchdogConfig ⟨2, 1, none, none, none, none⟩
        100 .degraded).1.consecutive_failures = 2 :=
  ⟨(claim_C5_ready_check defaultWatchdogConfig ⟨0, 0, none, none, some 0, none⟩
      100 (.success none) true .degraded
      (by norm_num [defaultWatchdogConfig])
      (by
        intro t ht
        rw [Option.some_inj.mp ht.symm] at *
        norm_num [defaultWatchdogConfig])).1,
   ((claim_C5_ready_check defaultWatchdogConfig ⟨0, 0, none, none, some 0, none⟩
      100 (.success none) true .degraded
      (by norm_num [defaultWatchdogConfig])
      (by
        intro t ht
        rw [Option.some_inj.mp ht.symm] at *
        norm_num [defaultWatchdogConfig])).2
      ⟨2, 1, none, none, none, none⟩ 100 .degraded).1⟩

/-- C4: the /ready endpoint reports ok exactly when all three of
thread_pool_ok, plc_service_ready and plc_alive hold, degraded exactly when
only plc_alive is false, and unhealthy in every other case; and no /ready
outcome changes the supervisor liveness failure counters. -/
theorem claim_C4_readiness_classification
    (t r a : Bool) :
    (readiness_status t r a = "ok" ↔ (t ∧ r ∧ a))
    ∧ (readiness_status t r a = "degraded" ↔ (t ∧ r ∧ ¬a))
    ∧ (readiness_status t r a = "unhealthy" ↔ ¬(t ∧ r))
    ∧ (∀ (cfg : WatchdogConfig) (s : WatchdogState) (now : ℚ)
        (resp : ReadyResponse),
        (check_ready_if_due cfg s now resp).1.consecutive_failures
          = s.consecutive_failures) := by
  refine ⟨?_, ?_, ?_, fun cfg s now resp =>
    (check_ready_preserves_counters cfg s now resp).1⟩ <;>
    cases t <;> cases r <;> cases a <;> simp [readiness_status]

/-! ## Theorems: PLC service failure counter -/

/-- C1: a dispatched transport call increments the consecutive-failure
counter by exactly 1 on any non-success outcome (timeout, disconnection,
protocol error) and resets it to 0 on any success; whenever the incremented
counter reaches PLC_FETCH_FAILURE_LIMIT the service attempts the graceful
disconnect and then sends SIGTERM to itself exactly once, and below the
limit no action is emitted. -/
theorem claim_C1_plc_failure_counter (failure_limit cf : ℕ) {α : Type}
    (v : α) :
    execute_with_timeout failure_limit cf (.ok v) = (0, [], .ok v)
    ∧ (execute_with_timeout failure_limit cf (.timeout : ExecOutcome α)).1
        = cf + 1
    ∧ (execute_with_timeout failure_limit cf (.raised : ExecOutcome α)).1
        = cf + 1
    ∧ (failure_limit ≤ cf + 1 →
        (execute_with_timeout failure_limit cf
            (.timeout : ExecOutcome α)).2.1 = [.disconnect, .sigterm]
        ∧ (execute_with_timeout failure_limit cf
            (.raised : ExecOutcome α)).2.1 = [.disconnect, .sigterm]
        ∧ ((execute_with_timeout failure_limit cf
            (.timeout : ExecOutcome α)).2.1.count .sigterm = 1))
    ∧ (cf + 1 < failure_limit →
        (execute_with_timeout failure_limit cf
            (.timeout : ExecOutcome α)).2.1 = []
        ∧ (execute_with_timeout failure_limit cf
            (.raised : ExecOutcome α)).2.1 = []) := by
  refine ⟨rfl, ?_, ?_, ?_, ?_⟩ <;>
    simp only [execute_with_timeout, handle_failure]
  · split <;> rfl
  · split <;> rfl
  · intro h
    simp [if_pos h]
  · intro h
    simp [if_neg (not_le.mpr h)]

/-- Witness for claim_C1_plc_failure_counter: with the default limit 5, the
fifth consecutive failure (counter at 4) emits the disconnect-then-SIGTERM
pair, and at counter 0 a failure emits nothing. -/
theorem claim_C1_witness :
    (execute_with_timeout 5 4 (.timeout : ExecOutcome ℕ)).2.1
        = [.disconnect, .sigterm]
    ∧ (execute_with_timeout 5 0 (.timeout : ExecOutcome ℕ)).2.1 = []
    ∧ execute_with_timeout 5 4 (.ok 7) = (0, [], .ok 7) :=
  ⟨((claim_C1_plc_failure_counter 5 4 (7 : ℕ)).2.2.2.1 (by decide)).1,
   ((claim_C1_plc_failure_counter 5 0 (7 : ℕ)).2.2.2.2 (by decide)).1,
   (claim_C1_plc_failure_counter 5 4 (7 : ℕ)).1⟩

/-! ## Theorems: auto-reconnect wrapper -/

/-- C6: with auto-reconnect enabled, an I/O error on a typed read makes the
wrapper call reconnect() exactly once and never run the original call more
than twice; after a successful reconnect the original call is retried
exactly once and its outcome (success or the second error) is surfaced
unchanged with no restart request; when the reconnect is exhausted the
original error is surfaced and a process restart is requested exactly when
the RECONNECT_RESTART flag is set and the failing call is one of the typed
reads read_words, read_bits, read_dwords. -/
theorem claim_C6_auto_reconnect {α : Type} (st : ClientSettings)
    (fname : String) (e : ℕ) (retry : Except ℕ α) (reconnect_ok : Bool)
    (henabled : st.auto_reconnect_enabled = true) :
    (auto_reconnect st fname (.error e) retry reconnect_ok).reconnect_calls = 1
    ∧ (auto_reconnect st fname (.error e) retry reconnect_ok).func_calls ≤ 2
    ∧ (reconnect_ok = true →
        (auto_reconnect st fname (.error e) retry reconnect_ok).func_calls = 2
        ∧ (auto_reconnect st fname (.error e) retry reconnect_ok).result
            = retry
        ∧ (auto_reconnect st fname (.error e) retry
            reconnect_ok).restart_requested = false)
    ∧ (reconnect_ok = false →
        (auto_reconnect st fname (.error e) retry reconnect_ok).result
            = .error e
        ∧ ((auto_reconnect st fname (.error e) retry
              reconnect_ok).restart_requested
            ↔ (st.reconnect_restart = true ∧ fname ∈ typed_read_names))) := by
  cases reconnect_ok <;>
    rcases retry with v | e2 <;>
    simp [auto_reconnect, henabled]

/-- Witness for claim_C6_auto_reconnect: with auto-reconnect and the
restart flag on, a read_words call that fails, reconnects successfully and
succeeds on retry surfaces the retried value after exactly two calls; the
same call with an exhausted reconnect surfaces the original error and
requests a restart. -/
theorem claim_C6_witness :
    (auto_reconnect ⟨true, true⟩ "read_words" (.error 3)
        (.ok (42 : ℕ)) true).func_calls = 2
    ∧ (auto_reconnect ⟨true, true⟩ "read_words" (.error 3)
        (.ok (42 : ℕ)) true).result = .ok 42
    ∧ (auto_reconnect ⟨true, true⟩ "read_words" (.error 3)
        (.ok (42 : ℕ)) false).result = .error 3
    ∧ (auto_reconnect ⟨true, true⟩ "read_words" (.error 3)
        (.ok (42 : ℕ)) false).restart_requested = true :=
  ⟨((claim_C6_auto_reconnect ⟨true, true⟩ "read_words" 3 (.ok 42) true
      rfl).2.2.1 rfl).1,
   ((claim_C6_auto_reconnect ⟨true, true⟩ "read_words" 3 (.ok 42) true
      rfl).2.2.1 rfl).2.1,
   ((claim_C6_auto_reconnect ⟨true, true⟩ "read_words" 3 (.ok 42) false
      rfl).2.2.2 rfl).1,
   (((claim_C6_auto_reconnect ⟨true, true⟩ "read_words" 3
      ((.ok 42 : Except ℕ ℕ)) false rfl).2.2.2 rfl).2.mpr
      ⟨rfl, by decide⟩)⟩

/-! ## Theorems: remaining minutes and pallets -/

/-- Helper: a snapshot built through a defined production-type entry
carries exactly the calculator results at the Python default of 2 decimals,
and the pydantic validation makes both nonnegative. -/
theorem fetch_production_data_defined (line_name : String)
    (lookup : ℕ → Option ProductionTypeConfig)
    (ptype_raw plan_raw actual_raw : ℤ) (inop alarm : Bool) (msg : String)
    (ts now : PLCDateTime) (cfg : ProductionTypeConfig) (s : ProductionData)
    (hcfg : lookup (clamp_production_type ptype_raw) = some cfg)
    (hs : fetch_production_data line_name lookup ptype_raw plan_raw actual_raw
        inop alarm msg ts now = some s) :
    s.remain_min
        = ⌈calculate_remain_minutes cfg (max 0 plan_raw) (max 0 actual_raw)
            (some 2)⌉
    ∧ s.remain_pallet
        = calculate_remain_pallet cfg (max 0 plan_raw) (max 0 actual_raw)
            (some 2)
    ∧ 0 ≤ s.remain_min ∧ 0 ≤ s.remain_pallet := by
  simp only [fetch_production_data, hcfg] at hs
  simp only [mk_production_data] at hs
  split at hs
  case isTrue hcond =>
    obtain ⟨-, -, hmin, hpal, -⟩ := hcond
    obtain rfl := (Option.some_inj.mp hs).symm
    exact ⟨rfl, rfl, hmin, hpal⟩
  case isFalse => exact absurd hs (by simp)

/-- C7, counterexample: with the master entry configA
(seconds_per_product 0.06) and fetched plan 1, actual 0, the snapshot is
built with remain_min 0, because the source rounds the remaining minutes to
2 decimals (round(0.001, 2) = 0.0) before applying the ceiling, while the
claimed formula ceil((plan-actual)*spp/60) = ceil(0.001) gives 1. -/
theorem claim_C7_counterexample :
    (fetch_production_data "L" lookupA 1 1 0 false false "" dt0 dt0).map
        ProductionData.remain_min = some 0
    ∧ ⌈(((1 : ℤ) - 0 : ℤ) : ℚ) * configA.seconds_per_product / 60⌉ = (1 : ℤ)
    ∧ (fetch_production_data "L" lookupA 1 1 0 false false "" dt0 dt0).map
          ProductionData.remain_min
        ≠ some ⌈(((1 : ℤ) - 0 : ℤ) : ℚ) * configA.seconds_per_product / 60⌉ := by
  have h1 : (fetch_production_data "L" lookupA 1 1 0 false false "" dt0
      dt0).map ProductionData.remain_min = some 0 := by
    norm_num [fetch_production_data, mk_production_data,
      calculate_remain_minutes, calculate_remain_pallet, py_round,
      round_half_even, clamp_production_type, lookupA, configA,
      Int.ceil_eq_iff]
  have h2 : ⌈(((1 : ℤ) - 0 : ℤ) : ℚ) * configA.seconds_per_product / 60⌉
      = (1 : ℤ) := by
    norm_num [configA, Int.ceil_eq_iff]
  refine ⟨h1, h2, ?_⟩
  rw [h1, h2]
  simp

/-- C7 (amended): for every snapshot built through a defined
production-type entry, remain_min is the ceiling of the remaining minutes
value rounded to 2 decimals first, remain_min =
ceil(round((plan-actual)*seconds_per_product/60, 2)) with plan and actual
the clamped fetched values; and remain_min is nonnegative whenever the
snapshot is actually built (for actual far enough above plan the pydantic
ge=0 constraint rejects the negative value and no snapshot is produced, so
the claimed tolerance of actual greater than plan only holds in that
vacuous sense). -/
theorem claim_C7_remain_min (line_name : String)
    (lookup : ℕ → Option ProductionTypeConfig)
    (ptype_raw plan_raw actual_raw : ℤ) (inop alarm : Bool) (msg : String)
    (ts now : PLCDateTime) (cfg : ProductionTypeConfig) (s : ProductionData)
    (hcfg : lookup (clamp_production_type ptype_raw) = some cfg)
    (hs : fetch_production_data line_name lookup ptype_raw plan_raw actual_raw
        inop alarm msg ts now = some s) :
    s.remain_min
      = ⌈py_round 2 (((max 0 plan_raw - max 0 actual_raw : ℤ) : ℚ)
          * cfg.seconds_per_product / 60)⌉
    ∧ 0 ≤ s.remain_min := by
  obtain ⟨hmin, -, hnn, -⟩ := fetch_production_data_defined line_name lookup
    ptype_raw plan_raw actual_raw inop alarm msg ts now cfg s hcfg hs
  exact ⟨by rw [hmin]; rfl, hnn⟩

/-- Witness for claim_C7_remain_min: configW (30 seconds per product) with
plan 2 and actual 1 builds snapshotW whose remain_min is
ceil(round(1*30/60, 2)) = ceil(0.5) = 1, a nonnegative value. -/
theorem claim_C7_witness :
    snapshotW.remain_min
      = ⌈py_round 2 (((max 0 (2 : ℤ) - max 0 (1 : ℤ) : ℤ) : ℚ)
          * configW.seconds_per_product / 60)⌉
    ∧ 0 ≤ snapshotW.remain_min :=
  claim_C7_remain_min "W" lookupW 1 2 1 true false "" dt0 dt0 configW snapshotW
    (by norm_num [lookupW, clamp_production_type])
    (by
      have hc : (⌈(1 : ℚ)/2⌉ : ℤ) = 1 := by norm_num [Int.ceil_eq_iff]
      norm_num [fetch_production_data, mk_production_data,
        calculate_remain_minutes, calculate_remain_pallet, py_round,
        round_half_even, clamp_production_type, lookupW, configW, snapshotW,
        hc])

/-- C8, counterexample: with the master entry configB (fully 8) and fetched
plan 1, actual 0, the snapshot is built with remain_pallet
round(1/8, 2) = 0.12 - two decimal places, not one: the claimed one-decimal
rounding gives round(0.125, 1) = 0.1. -/
theorem claim_C8_counterexample :
    (fetch_production_data "L" lookupB 1 1 0 false false "" dt0 dt0).map
        ProductionData.remain_pallet = some (3/25)
    ∧ py_round 1 ((((1 : ℤ) - 0 : ℤ) : ℚ) / (configB.fully : ℚ)) = 1/10
    ∧ (fetch_production_data "L" lookupB 1 1 0 false false "" dt0 dt0).map
          ProductionData.remain_pallet
        ≠ some (py_round 1 ((((1 : ℤ) - 0 : ℤ) : ℚ) / (configB.fully : ℚ))) := by
  have h1 : (fetch_production_data "L" lookupB 1 1 0 false false "" dt0
      dt0).map ProductionData.remain_pallet = some (3/25) := by
    have hc : (⌈(1 : ℚ)/50⌉ : ℤ) = 1 := by norm_num [Int.ceil_eq_iff]
    norm_num [fetch_production_data, mk_production_data,
      calculate_remain_minutes, calculate_remain_pallet, py_round,
      round_half_even, clamp_production_type, lookupB, configB, hc]
  have h2 : py_round 1 ((((1 : ℤ) - 0 : ℤ) : ℚ) / (configB.fully : ℚ))
      = 1/10 := by
    norm_num [py_round, round_half_even, configB]
  refine ⟨h1, h2, ?_⟩
  rw [h1, h2]
  norm_num

/-- C8 (amended): for every snapshot built through a defined
production-type entry, remain_pallet equals the remaining units (clamped at
0) over fully rounded to two decimal places, not one - fetch_production_data
calls calculate_remain_pallet without a decimals argument and the Python
default is 2 - and it is nonnegative. -/
theorem claim_C8_remain_pallet (line_name : String)
    (lookup : ℕ → Option ProductionTypeConfig)
    (ptype_raw plan_raw actual_raw : ℤ) (inop alarm : Bool) (msg : String)
    (ts now : PLCDateTime) (cfg : ProductionTypeConfig) (s : ProductionData)
    (hcfg : lookup (clamp_production_type ptype_raw) = some cfg)
    (hs : fetch_production_data line_name lookup ptype_raw plan_raw actual_raw
        inop alarm msg ts now = some s) :
    s.remain_pallet
      = py_round 2
          (((max 0 (max 0 plan_raw - max 0 actual_raw) : ℤ) : ℚ)
            / (cfg.fully : ℚ))
    ∧ 0 ≤ s.remain_pallet := by
  obtain ⟨-, hpal, -, hnn⟩ := fetch_production_data_defined line_name lookup
    ptype_raw plan_raw actual_raw inop alarm msg ts now cfg s hcfg hs
  exact ⟨by rw [hpal]; rfl, hnn⟩

/-- Witness for claim_C8_remain_pallet: configW (fully 2) with plan 2 and
actual 1 builds snapshotW whose remain_pallet is round(1/2, 2) = 0.5,
nonnegative. -/
theorem claim_C8_witness :
    snapshotW.remain_pallet
      = py_round 2
          (((max 0 (max 0 (2 : ℤ) - max 0 (1 : ℤ)) : ℤ) : ℚ)
            / (configW.fully : ℚ))
    ∧ 0 ≤ snapshotW.remain_pallet :=
  claim_C8_remain_pallet "W" lookupW 1 2 1 true false "" dt0 dt0 configW
    snapshotW
    (by norm_num [lookupW, clamp_production_type])
    (by
      have hc : (⌈(1 : ℚ)/2⌉ : ℤ) = 1 := by norm_num [Int.ceil_eq_iff]
      norm_num [fetch_production_data, mk_production_data,
        calculate_remain_minutes, calculate_remain_pallet, py_round,
        round_half_even, clamp_production_type, lookupW, configW, snapshotW,
        hc])

/-! ## Theorems: alarm message decoding -/

/-- Helper: the head left after dropping leading NULs is never a NUL. -/
theorem dropWhile_zero_head (l : List ℕ) :
    (l.dropWhile (fun b => b == 0)).head? ≠ some 0 := by
  induction l with
  | nil => simp
  | cons a t ih =>
    by_cases ha : a = 0
    · simpa [List.dropWhile_cons, ha] using ih
    · simp [List.dropWhile_cons, ha]

/-- Helper: trimming trailing NULs never leaves a NUL at the end. -/
theorem drop_trailing_zeros_getLast (l : List ℕ) :
    (drop_trailing_zeros l).getLast? ≠ some 0 := by
  unfold drop_trailing_zeros
  rw [List.getLast?_reverse]
  exact dropWhile_zero_head _

/-- Helper: trimming trailing NULs removes exactly a (possibly empty) block
of NULs from the end. -/
theorem drop_trailing_zeros_append (l : List ℕ) :
    ∃ pad : List ℕ, (∀ b ∈ pad, b = 0) ∧ drop_trailing_zeros l ++ pad = l := by
  refine ⟨(l.reverse.takeWhile (fun b => b == 0)).reverse, ?_, ?_⟩
  · intro b hb
    rw [List.mem_reverse] at hb
    simpa using List.mem_takeWhile_imp hb
  · have h := List.takeWhile_append_dropWhile (fun b => b == 0) l.reverse
    calc drop_trailing_zeros l
          ++ (l.reverse.takeWhile (fun b => b == 0)).reverse
        = ((l.reverse.takeWhile (fun b => b == 0))
            ++ (l.reverse.dropWhile (fun b => b == 0))).reverse := by
          rw [List.reverse_append]; rfl
      _ = l.reverse.reverse := by rw [h]
      _ = l := List.reverse_reverse l

/-- Helper: 10 words yield exactly 20 bytes before trimming. -/
theorem alarm_bytes_length (mem : ℕ → ℕ) : (alarm_bytes mem).length = 20 := by
  simp [alarm_bytes, List.length_flatMap, List.range_succ]

/-- C9, counterexample: on a memory whose 16 words all pack two letters A
the source decodes only the 10 words it reads (20 bytes), not the 16 words
(32 bytes) the claim describes. -/
theorem claim_C9_counterexample :
    fetch_alarm_msg wide_words ≠ spec_alarm_msg_16 wide_words
    ∧ (fetch_alarm_msg wide_words).length = 20
    ∧ (spec_alarm_msg_16 wide_words).length = 32 := by
  decide

/-- C9 (amended): the alarm message is up to 20 bytes decoded from the 10
consecutive 16-bit words the source reads (not 16 words), taking the high
byte before the low byte within each word and trimming exactly the trailing
NUL characters (the trimmed message never ends in NUL); in particular the
words 0x4552, 0x524F, 0x5200 followed by NULs decode to ERROR. -/
theorem claim_C9_alarm_msg (mem : ℕ → ℕ) :
    (fetch_alarm_msg mem).length ≤ 20
    ∧ (∃ pad : List ℕ, (∀ b ∈ pad, b = 0)
        ∧ fetch_alarm_msg mem ++ pad = alarm_bytes mem)
    ∧ (fetch_alarm_msg mem).getLast? ≠ some 0
    ∧ fetch_alarm_msg error_words = [0x45, 0x52, 0x52, 0x4F, 0x52] := by
  obtain ⟨pad, hpad, happ⟩ := drop_trailing_zeros_append (alarm_bytes mem)
  refine ⟨?_, ⟨pad, hpad, happ⟩, drop_trailing_zeros_getLast _, by decide⟩
  have hlen : (fetch_alarm_msg mem).length + pad.length
      = (alarm_bytes mem).length := by
    rw [← List.length_append]
    exact congrArg List.length happ
  rw [alarm_bytes_length] at hlen
  omega

/-! ## Theorems: production timestamp fetching -/

/-- C10: calling fetch_production_timestamp with an empty device-name
string raises ValueError (for every read outcome and clock value), never
returning the system-clock default; with a non-empty device name a caught
transport error or a failed BCD decode substitutes the system clock, and a
successful decode returns the decoded value; the BCD words 0x2511, 0x1314,
0x3045 decode to 2025-11-13 14:30:45. -/
theorem claim_C10_timestamp_empty_device :
    (∀ (read : Option (List ℕ)) (now : PLCDateTime),
      fetch_production_timestamp "" read now
        = .error "head_device cannot be an empty string")
    ∧ (∀ (dev : String) (now : PLCDateTime), dev ≠ "" →
        fetch_production_timestamp dev none now = .ok now)
    ∧ (∀ (dev : String) (ws : List ℕ) (now : PLCDateTime), dev ≠ "" →
        decode_bcd_timestamp ws = none →
        fetch_production_timestamp dev (some ws) now = .ok now)
    ∧ (∀ (dev : String) (ws : List ℕ) (now dt : PLCDateTime), dev ≠ "" →
        decode_bcd_timestamp ws = some dt →
        fetch_production_timestamp dev (some ws) now = .ok dt)
    ∧ fetch_production_timestamp "SD210" (some [0x2511, 0x1314, 0x3045]) dt0
        = .ok ⟨2025, 11, 13, 14, 30, 45⟩ := by
  refine ⟨fun read now => rfl, ?_, ?_, ?_, by rfl⟩
  · intro dev now h
    simp [fetch_production_timestamp, h]
  · intro dev ws now h hdec
    simp [fetch_production_timestamp, h, hdec]
  · intro dev ws now dt h hdec
    simp [fetch_production_timestamp, h, hdec]

/-- Witness for claim_C10_timestamp_empty_device: the empty device name
errors even on a well-formed read; device SD210 with a transport error or
with the undecodable word 0xFF11 falls back to the system clock. -/
theorem claim_C10_witness :
    fetch_production_timestamp "" (some [0x2511, 0x1314, 0x3045]) dt0
        = .error "head_device cannot be an empty string"
    ∧ fetch_production_timestamp "SD210" none dt0 = .ok dt0
    ∧ fetch_production_timestamp "SD210" (some [0xFF11, 0, 0]) dt0
        = .ok dt0 :=
  ⟨claim_C10_timestamp_empty_device.1 (some [0x2511, 0x1314, 0x3045]) dt0,
   claim_C10_timestamp_empty_device.2.1 "SD210" dt0 (by decide),
   claim_C10_timestamp_empty_device.2.2.1 "SD210" [0xFF11, 0, 0] dt0
     (by decide) (by decide)⟩

end Signage
